import Mathlib

/-!
# Verification of the r1sdk plugin bridge

Shallow embedding of the messaging / hardware-event / device-control layer of
the r1sdk TypeScript repository, together with proofs about its dispatch,
registration and gating behaviour.

Modelling conventions:
* A JavaScript `Set` of handler functions is modelled ES-style as an ordered
  list of entry slots (`Entries`): `delete` empties the slot in place, `add`
  appends a fresh slot when the value is not already present.  `Set.forEach`
  walks the slots by index, skipping emptied slots and visiting slots appended
  during the walk — this is exactly the observable iteration order of the
  ECMAScript specification, which the source relies on when handlers mutate
  the registry mid-dispatch.
* Handler functions are identified by natural numbers; their observable
  behaviour during one invocation (registry mutations performed, whether the
  call throws) is a `MsgBeh` supplied as an environment `Nat → MsgBeh`.
* `JSON.parse` / `JSON.stringify` are host primitives, not repository code;
  they enter the model as parameters (`parse : String → Option J`,
  `stringify : PluginMessage → String`).
-/

namespace R1SDK

/-- One slot of a JavaScript `Set` of handlers: `none` is an emptied slot. -/
abbrev Entries := List (Option Nat)

/-- `set.has(h)` — membership among the non-empty slots. -/
def entHas (es : Entries) (h : Nat) : Bool := decide (some h ∈ es)

/-- `set.add(h)`: appends a slot unless the handler is already present. -/
def entAdd (es : Entries) (h : Nat) : Entries :=
  if some h ∈ es then es else es ++ [some h]

/-- `set.delete(h)`: empties the slot holding `h` (keeps its position). -/
def entDel (es : Entries) (h : Nat) : Entries :=
  es.map (fun e => if e = some h then none else e)

/-- The handlers currently registered (non-empty slots, in order). -/
def registered (es : Entries) : List Nat := es.filterMap id

/-- Well-formedness: no handler occupies two slots (guaranteed by `entAdd`). -/
abbrev WF (es : Entries) : Prop := (registered es).Nodup

/-- A registry mutation a handler may perform while it runs
(`onMessage` / `offMessage` style calls on the same `Set`). -/
inductive RegOp
  | add (h : Nat)
  | remove (h : Nat)
deriving DecidableEq

/-- Observable behaviour of one handler invocation: the registry operations it
performs, and whether it throws after performing them. -/
structure MsgBeh where
  ops : List RegOp
  throws : Bool
deriving DecidableEq

def applyOp (es : Entries) : RegOp → Entries
  | .add h => entAdd es h
  | .remove h => entDel es h

def runOps (es : Entries) (ops : List RegOp) : Entries := ops.foldl applyOp es

/--
`Set.prototype.forEach` over a handler registry, in two variants matching the
two shapes found in the source:
* `catching = true`: each call is wrapped in its own try/catch
  (`R1Messaging.initializeMessageHandler`), so a throwing handler never stops
  the walk and nothing propagates;
* `catching = false`: no try/catch (`HardwareEvents.emit`,
  `DeviceControls.handleSideButtonClick` / `handleScrollWheel`), so the first
  throwing handler aborts the walk and its exception propagates
  (third component `some h`).
Iteration is by slot index; emptied slots are skipped and slots appended
during the walk are visited.  `fuel` bounds the number of steps (the registry
may grow); every theorem below supplies enough fuel for the walk to finish.
Returns (final registry, handlers invoked in order, propagated exception).
-/
def fanOutLoop (catching : Bool) (beh : Nat → MsgBeh) :
    Nat → Nat → Entries → List Nat → Entries × List Nat × Option Nat
  | 0, _, es, acc => (es, acc, none)
  | fuel + 1, i, es, acc =>
    if hlt : i < es.length then
      match es.get ⟨i, hlt⟩ with
      | none => fanOutLoop catching beh fuel (i + 1) es acc
      | some hid =>
        let es2 := runOps es (beh hid).ops
        if (beh hid).throws && !catching then (es2, acc ++ [hid], some hid)
        else fanOutLoop catching beh fuel (i + 1) es2 (acc ++ [hid])
    else (es, acc, none)

/-- The handlers still to be visited from slot `i` on (when nothing mutates). -/
def registeredFrom (es : Entries) (i : Nat) : List Nat := (es.drop i).filterMap id

lemma registered_eq_registeredFrom_zero (es : Entries) : registered es = registeredFrom es 0 := rfl

lemma drop_get_cons {α : Type} (es : List α) (i : Nat) (h : i < es.length) :
    es.drop i = es.get ⟨i, h⟩ :: es.drop (i + 1) := by
  induction es generalizing i with
  | nil => simp at h
  | cons a t ih =>
    cases i with
    | zero => simp
    | succ j =>
      simp only [List.drop_succ_cons, List.length_cons] at *
      exact ih j (Nat.lt_of_succ_lt_succ h)

lemma registeredFrom_of_ge (es : Entries) (i : Nat) (h : es.length ≤ i) :
    registeredFrom es i = [] := by
  unfold registeredFrom
  rw [List.drop_eq_nil_of_le h]
  rfl

lemma registeredFrom_none (es : Entries) (i : Nat) (hlt : i < es.length)
    (hget : es.get ⟨i, hlt⟩ = none) :
    registeredFrom es i = registeredFrom es (i + 1) := by
  unfold registeredFrom
  rw [drop_get_cons es i hlt, hget]
  rfl

lemma registeredFrom_some (es : Entries) (i : Nat) (hlt : i < es.length) (hid : Nat)
    (hget : es.get ⟨i, hlt⟩ = some hid) :
    registeredFrom es i = hid :: registeredFrom es (i + 1) := by
  unfold registeredFrom
  rw [drop_get_cons es i hlt, hget]
  rfl

/-- When no handler mutates the registry and no exception escapes (either the
loop catches, or no visited handler throws), `forEach` visits exactly the
registered handlers in slot order and nothing propagates. -/
lemma fanOutLoop_noMutation (catching : Bool) (beh : Nat → MsgBeh) (es : Entries)
    (hops : ∀ h, (beh h).ops = [])
    (hnt : ∀ h, ((beh h).throws && !catching) = false) :
    ∀ (fuel i : Nat) (acc : List Nat), es.length - i ≤ fuel →
      fanOutLoop catching beh fuel i es acc = (es, acc ++ registeredFrom es i, none) := by
  intro fuel
  induction fuel with
  | zero =>
    intro i acc hle
    have hge : es.length ≤ i := Nat.le_of_sub_eq_zero (Nat.le_zero.mp hle)
    rw [fanOutLoop, registeredFrom_of_ge es i hge]
    simp
  | succ fuel ih =>
    intro i acc hle
    rw [fanOutLoop]
    by_cases hlt : i < es.length
    · rw [dif_pos hlt]
      have hle2 : es.length - (i + 1) ≤ fuel := by omega
      cases hget : es.get ⟨i, hlt⟩ with
      | none =>
        rw [ih (i + 1) acc hle2, registeredFrom_none es i hlt hget]
      | some hid =>
        simp only
        rw [hops hid]
        simp only [runOps, List.foldl_nil]
        rw [if_neg (by simp [hnt hid])]
        rw [ih (i + 1) (acc ++ [hid]) hle2, registeredFrom_some es i hlt hid hget]
        simp
    · rw [dif_neg hlt, registeredFrom_of_ge es i (Nat.le_of_not_lt hlt)]
      simp

/-- Uncaught fan-out aborts at the first throwing handler: everything before
it is invoked, it is invoked, everything after it is not, and the exception
propagates out of the loop.  Handlers here perform no registry mutation. -/
lemma fanOutLoop_abort (th : Nat → Bool) :
    ∀ (fuel i : Nat) (es : Entries) (acc pre post : List Nat) (c : Nat),
      registeredFrom es i = pre ++ c :: post →
      (∀ x ∈ pre, th x = false) → th c = true →
      es.length - i ≤ fuel →
      fanOutLoop false (fun h => ⟨[], th h⟩) fuel i es acc = (es, acc ++ pre ++ [c], some c) := by
  intro fuel
  induction fuel with
  | zero =>
    intro i es acc pre post c hreg _ _ hle
    have hge : es.length ≤ i := Nat.le_of_sub_eq_zero (Nat.le_zero.mp hle)
    rw [registeredFrom_of_ge es i hge] at hreg
    exact absurd hreg.symm (List.append_ne_nil_of_right_ne_nil pre (List.cons_ne_nil c post))
  | succ fuel ih =>
    intro i es acc pre post c hreg hpre hc hle
    rw [fanOutLoop]
    by_cases hlt : i < es.length
    · rw [dif_pos hlt]
      have hle2 : es.length - (i + 1) ≤ fuel := by omega
      cases hget : es.get ⟨i, hlt⟩ with
      | none =>
        rw [registeredFrom_none es i hlt hget] at hreg
        exact ih (i + 1) es acc pre post c hreg hpre hc hle2
      | some hid =>
        simp only
        rw [registeredFrom_some es i hlt hid hget] at hreg
        cases pre with
        | nil =>
          have hhid : hid = c := by simpa using congrArg (fun l => l.head?) hreg
          subst hhid
          simp only [runOps, List.foldl_nil]
          rw [if_pos (by simp [hc])]
          simp
        | cons x pre2 =>
          have hhid : hid = x := by simpa using congrArg (fun l => l.head?) hreg
          subst hhid
          have htail : registeredFrom es (i + 1) = pre2 ++ c :: post := by
            simpa using congrArg (fun l => l.tail) hreg
          simp only [runOps, List.foldl_nil]
          rw [if_neg (by simp [hpre hid (by simp)])]
          rw [ih (i + 1) es (acc ++ [hid]) pre2 post c htail
            (fun y hy => hpre y (by simp [hy])) hc hle2]
          simp
    · rw [registeredFrom_of_ge es i (Nat.le_of_not_lt hlt)] at hreg
      exact absurd hreg.symm (List.append_ne_nil_of_right_ne_nil pre (List.cons_ne_nil c post))

/- ## Basic registry lemmas -/

lemma mem_registered (es : Entries) (c : Nat) : c ∈ registered es ↔ some c ∈ es := by
  unfold registered
  rw [List.mem_filterMap]
  constructor
  · rintro ⟨a, ha, hac⟩
    cases a with
    | none => simp at hac
    | some x => simp at hac; subst hac; exact ha
  · intro h
    exact ⟨some c, h, rfl⟩

lemma entAdd_idem (es : Entries) (h : Nat) : entAdd (entAdd es h) h = entAdd es h := by
  unfold entAdd
  by_cases hmem : some h ∈ es
  · simp [hmem]
  · simp [hmem]

lemma registered_entAdd_of_not_mem (es : Entries) (h : Nat) (hmem : some h ∉ es) :
    registered (entAdd es h) = registered es ++ [h] := by
  unfold entAdd registered
  rw [if_neg hmem, List.filterMap_append]
  rfl

lemma registered_entAdd_of_mem (es : Entries) (h : Nat) (hmem : some h ∈ es) :
    registered (entAdd es h) = registered es := by
  unfold entAdd
  rw [if_pos hmem]

lemma WF_entAdd (es : Entries) (h : Nat) (hwf : WF es) : WF (entAdd es h) := by
  unfold WF
  by_cases hmem : some h ∈ es
  · rw [registered_entAdd_of_mem es h hmem]; exact hwf
  · rw [registered_entAdd_of_not_mem es h hmem]
    have hnot : h ∉ registered es := fun hc => hmem ((mem_registered es h).mp hc)
    simpa [List.nodup_append] using ⟨hwf, hnot⟩

lemma mem_registered_entAdd (es : Entries) (h : Nat) : h ∈ registered (entAdd es h) := by
  by_cases hmem : some h ∈ es
  · rw [registered_entAdd_of_mem es h hmem]
    exact (mem_registered es h).mpr hmem
  · rw [registered_entAdd_of_not_mem es h hmem]
    simp

lemma not_mem_entDel (es : Entries) (h : Nat) : some h ∉ entDel es h := by
  unfold entDel
  intro hc
  rw [List.mem_map] at hc
  obtain ⟨e, _, he⟩ := hc
  by_cases heq : e = some h
  · rw [if_pos heq] at he; exact Option.noConfusion he
  · rw [if_neg heq] at he; exact heq he

lemma not_mem_registered_entDel (es : Entries) (h : Nat) : h ∉ registered (entDel es h) :=
  fun hc => not_mem_entDel es h ((mem_registered (entDel es h) h).mp hc)

/- ## Message codec and response dispatcher (src/llm/index.ts, R1Messaging) -/

/-- The inbound payload the host hands to `window.onPluginMessage`:
`{ message: string, pluginId: string, data?: string }`. -/
structure PluginMessageResponse where
  message : String
  pluginId : String
  data : Option String
deriving DecidableEq

/-- The value of the derived `parsedData` field (`J` is the type `JSON.parse`
produces on success): absent (`undefined`), a parsed value, or the raw string
kept as fallback. -/
inductive ParsedData (J : Type) where
  | undef
  | json (j : J)
  | str (s : String)
deriving DecidableEq

/-- The enhanced envelope `{ ...data, parsedData }` handed to every handler:
the original payload fields plus the derived `parsedData`. -/
structure EnhancedData (J : Type) where
  message : String
  pluginId : String
  data : Option String
  parsedData : ParsedData J
deriving DecidableEq

/--
The derivation of `parsedData` in `initializeMessageHandler`:
```
let parsedData = undefined;
if (data.data) {
  try { parsedData = JSON.parse(data.data); }
  catch (e) { parsedData = data.data; }
}
```
`if (data.data)` is a JavaScript truthiness test: it is skipped both when the
field is absent and when it is the empty string (`""` is falsy), so in those
two cases `parsedData` stays `undefined`.  `parse` stands for the host
primitive `JSON.parse`, with `none` modelling a parse failure (throw).
-/
def computeParsedData {J : Type} (parse : String → Option J) (d : Option String) : ParsedData J :=
  match d with
  | none => .undef
  | some s =>
    if s = "" then .undef
    else
      match parse s with
      | some j => .json j
      | none => .str s

/-- `const enhancedData = { ...data, parsedData }`. -/
def enhance {J : Type} (parse : String → Option J) (p : PluginMessageResponse) : EnhancedData J :=
  { message := p.message
    pluginId := p.pluginId
    data := p.data
    parsedData := computeParsedData parse p.data }

/-- `R1Messaging.onMessage(handler)`: `this.messageHandlers.add(handler)`. -/
def onMessage (es : Entries) (h : Nat) : Entries := entAdd es h

/-- `R1Messaging.offMessage(handler)`: `this.messageHandlers.delete(handler)`. -/
def offMessage (es : Entries) (h : Nat) : Entries := entDel es h

/--
The body of the installed inbound slot `window.onPluginMessage`: builds the
enhanced envelope once, then fans it out over the live handler `Set` with a
per-handler try/catch (`catching = true`).  Returns the final registry, the
invocations (each handler paired with the envelope it received) and the
exception propagated back to the host (always `none`: the outer try/catch and
the per-handler try/catch absorb everything).
-/
def onPluginMessage {J : Type} (parse : String → Option J) (beh : Nat → MsgBeh)
    (es : Entries) (p : PluginMessageResponse) (fuel : Nat) :
    Entries × List (Nat × EnhancedData J) × Option Nat :=
  let enhanced := enhance parse p
  let r := fanOutLoop true beh fuel 0 es []
  (r.1, r.2.1.map (fun h => (h, enhanced)), r.2.2)

/-- Options accepted by `R1Messaging.sendMessage` (all optional). -/
structure MessageOptions where
  useLLM : Option Bool
  useSerpAPI : Option Bool
  wantsR1Response : Option Bool
  wantsJournalEntry : Option Bool
  pluginId : Option String
  imageBase64 : Option String
deriving DecidableEq

/-- The outbound `PluginMessage` envelope (`{ message, ...options }`). -/
structure PluginMessage where
  message : String
  useLLM : Option Bool
  useSerpAPI : Option Bool
  wantsR1Response : Option Bool
  wantsJournalEntry : Option Bool
  pluginId : Option String
  imageBase64 : Option String
deriving DecidableEq

/-- `const payload: PluginMessage = { message, ...options }`. -/
def mkPayload (message : String) (o : MessageOptions) : PluginMessage :=
  { message := message
    useLLM := o.useLLM
    useSerpAPI := o.useSerpAPI
    wantsR1Response := o.wantsR1Response
    wantsJournalEntry := o.wantsJournalEntry
    pluginId := o.pluginId
    imageBase64 := o.imageBase64 }

/-- The exact message of the error thrown when the transport handle is absent. -/
def envUnavailableMsg : String :=
  "PluginMessageHandler not available. Make sure you are running in R1 environment."

/--
`R1Messaging.sendMessage(message, options)`: builds the payload, and
* if the host transport handle `PluginMessageHandler` is present
  (`handlerAvailable = true`), posts `JSON.stringify(payload)` (appended to
  `posted`, the list of strings handed to `postMessage` so far) and raises
  nothing;
* otherwise raises the `EnvironmentUnavailable`-style error without posting.
`stringify` stands for the host primitive `JSON.stringify`.  Returns the
posted-message list and the raised error, if any.
-/
def sendMessage (stringify : PluginMessage → String) (handlerAvailable : Bool)
    (posted : List String) (message : String) (o : MessageOptions) :
    List String × Option String :=
  let payload := mkPayload message o
  if handlerAvailable then (posted ++ [stringify payload], none)
  else (posted, some envUnavailableMsg)

/- ## Hardware event normalizer (src/storage/index.ts, HardwareEvents) -/

/-- The closed five-member hardware event taxonomy. -/
inductive HardwareEventType where
  | sideClick
  | longPressStart
  | longPressEnd
  | scrollUp
  | scrollDown
deriving DecidableEq

/-- The per-tag listener map `Map<HardwareEventType, Set<() => void>>`.
A tag never registered maps to the empty registry (observably the same as the
code's `undefined` guard in `emit`). -/
abbrev HWListeners := HardwareEventType → Entries

def hwFresh : HWListeners := fun _ => []

/-- `HardwareEvents.on(event, callback)`. -/
def hwOn (l : HWListeners) (e : HardwareEventType) (c : Nat) : HWListeners :=
  fun x => if x = e then entAdd (l e) c else l x

/-- `HardwareEvents.off(event, callback)`. -/
def hwOff (l : HWListeners) (e : HardwareEventType) (c : Nat) : HWListeners :=
  fun x => if x = e then entDel (l e) c else l x

/--
`HardwareEvents.emit(event)`: `callbacks.forEach(callback => callback())` —
no try/catch, so a throwing callback aborts the walk and the exception
propagates out of `emit`.  Callback behaviour here is whether it throws
(`th`); the callbacks take no arguments.  Returns (callbacks invoked in
order, propagated exception).
-/
def hwEmit (th : Nat → Bool) (l : HWListeners) (e : HardwareEventType) :
    List Nat × Option Nat :=
  let es := l e
  let r := fanOutLoop false (fun h => ⟨[], th h⟩) es.length 0 es []
  (r.2.1, r.2.2)

/-- An event on the ambient window surface, as far as the bridge inspects it:
its name and the `detail.source` field of the `CustomEvent`, if any.  A
native host-raised `sideClick` carries no detail. -/
structure WEvent where
  name : String
  detailSource : Option String
deriving DecidableEq

/-- A keyboard event, as far as the fallback listener inspects it. -/
structure KeyEvent where
  code : String
deriving DecidableEq

/-- The three origins a `sideClick` ambient signal can come from. -/
inductive Origin where
  | native
  | keyboard
  | programmatic
deriving DecidableEq

/-- The window event each origin raises on the ambient surface. -/
def originEvent : Origin → WEvent
  | .native => ⟨"sideClick", none⟩
  | .keyboard => ⟨"sideClick", some "keyboard"⟩
  | .programmatic => ⟨"sideClick", some "programmatic"⟩

/-- `DeviceControls.setupKeyboardFallback`: the keydown listener maps a Space
press to a synthetic `sideClick` CustomEvent dispatched on the window, and
ignores every other key. -/
def keydownFallbackEvent (k : KeyEvent) : Option WEvent :=
  if k.code = "Space" then some ⟨"sideClick", some "keyboard"⟩ else none

/-- `DeviceControls.triggerSideButton()`: dispatches
`new CustomEvent('sideClick', { detail: { source: 'programmatic' } })`. -/
def triggerSideButtonEvent : WEvent := ⟨"sideClick", some "programmatic"⟩

/-- The window listener `HardwareEvents.initializeEventListeners` installs for
`sideClick`: `() => { this.emit('sideClick'); }` — it takes no parameter, so
the window event value (and with it the origin's `detail`) is dropped before
the normalizer republishes the canonical tag. -/
def hwWindowSideClickListener (th : Nat → Bool) (l : HWListeners) (_ev : WEvent) :
    List Nat × Option Nat :=
  hwEmit th l HardwareEventType.sideClick

/-- What consumers registered on the canonical `sideClick` tag observe when
the signal of origin `o` is raised: the normalizer's window listener runs on
the origin's event.  The callbacks are nullary, so the observation is just
which consumers ran (and any propagated exception). -/
def hwObserve (th : Nat → Bool) (l : HWListeners) (o : Origin) : List Nat × Option Nat :=
  hwWindowSideClickListener th l (originEvent o)

/- ## Device control gate (src/hardware/device-controls.ts, DeviceControls) -/

/-- The gate's two logical channels (keys of its `eventListeners` map). -/
inductive GateChannel where
  | sideButton
  | scrollWheel
deriving DecidableEq

inductive ScrollDirection where
  | up
  | down
deriving DecidableEq

/-- The payload the gate synthesizes for scroll consumers. -/
structure ScrollWheelData where
  direction : ScrollDirection
  event : Option WEvent
deriving DecidableEq

/-- `DeviceControlsOptions`: all three flags optional. -/
structure DeviceControlsOptions where
  sideButtonEnabled : Option Bool
  scrollWheelEnabled : Option Bool
  keyboardFallback : Option Bool
deriving DecidableEq

/--
The state of one `DeviceControls` instance together with the window listeners
it has installed.  All listeners a given `setup*` routine installs are
identical closures over the same instance, so the window registries are
modelled by how many copies are installed per event name.
-/
structure DCState where
  sideButtonEnabled : Bool
  scrollWheelEnabled : Bool
  sideButtonHandlers : Entries
  scrollWheelHandlers : Entries
  winSideClickCount : Nat
  winScrollUpCount : Nat
  winScrollDownCount : Nat
  winKeydownCount : Nat
deriving DecidableEq

/-- A freshly constructed `DeviceControls` (field initializers: both flags
`true`, empty registries, no window listeners installed yet). -/
def dcFresh : DCState :=
  { sideButtonEnabled := true
    scrollWheelEnabled := true
    sideButtonHandlers := []
    scrollWheelHandlers := []
    winSideClickCount := 0
    winScrollUpCount := 0
    winScrollDownCount := 0
    winKeydownCount := 0 }

/--
`DeviceControls.init(options)`: re-applies both enable flags
(`options.x ?? true`), then
* if the side button is (now) enabled, `setupSideButtonListener` adds one more
  `sideClick` window listener;
* if the scroll wheel is enabled, `setupScrollWheelListener` adds one more
  `scrollUp` and one more `scrollDown` window listener;
* if `options.keyboardFallback !== false`, `setupKeyboardFallback` adds one
  more `keydown` window listener.
There is no guard against repeated calls: every call installs fresh listeners
on top of the existing ones.
-/
def DCState.init (s : DCState) (o : DeviceControlsOptions) : DCState :=
  let sb := o.sideButtonEnabled.getD true
  let sw := o.scrollWheelEnabled.getD true
  { sideButtonEnabled := sb
    scrollWheelEnabled := sw
    sideButtonHandlers := s.sideButtonHandlers
    scrollWheelHandlers := s.scrollWheelHandlers
    winSideClickCount := s.winSideClickCount + (if sb then 1 else 0)
    winScrollUpCount := s.winScrollUpCount + (if sw then 1 else 0)
    winScrollDownCount := s.winScrollDownCount + (if sw then 1 else 0)
    winKeydownCount := s.winKeydownCount + (if o.keyboardFallback = some false then 0 else 1) }

/-- `DeviceControls.on(eventType, handler)`. -/
def DCState.on (s : DCState) (t : GateChannel) (h : Nat) : DCState :=
  match t with
  | .sideButton => { s with sideButtonHandlers := entAdd s.sideButtonHandlers h }
  | .scrollWheel => { s with scrollWheelHandlers := entAdd s.scrollWheelHandlers h }

/-- `DeviceControls.off(eventType, handler)`. -/
def DCState.off (s : DCState) (t : GateChannel) (h : Nat) : DCState :=
  match t with
  | .sideButton => { s with sideButtonHandlers := entDel s.sideButtonHandlers h }
  | .scrollWheel => { s with scrollWheelHandlers := entDel s.scrollWheelHandlers h }

/-- `DeviceControls.setSideButtonEnabled(enabled)`: writes the flag only. -/
def DCState.setSideButtonEnabled (s : DCState) (b : Bool) : DCState :=
  { s with sideButtonEnabled := b }

/-- `DeviceControls.setScrollWheelEnabled(enabled)`: writes the flag only. -/
def DCState.setScrollWheelEnabled (s : DCState) (b : Bool) : DCState :=
  { s with scrollWheelEnabled := b }

/-- `DeviceControls.handleSideButtonClick(event)`:
`handlers.forEach(handler => handler(event))` over the `sideButton` registry —
no try/catch, so a throwing consumer aborts the walk and the exception
propagates.  Returns (consumers invoked, propagated exception). -/
def DCState.handleSideButtonClick (th : Nat → Bool) (s : DCState) :
    List Nat × Option Nat :=
  let es := s.sideButtonHandlers
  let r := fanOutLoop false (fun h => ⟨[], th h⟩) es.length 0 es []
  (r.2.1, r.2.2)

/-- `DeviceControls.handleScrollWheel(data)`: same uncaught fan-out over the
`scrollWheel` registry, each consumer receiving the synthesized data. -/
def DCState.handleScrollWheel (th : Nat → Bool) (s : DCState) (d : ScrollWheelData) :
    List (Nat × ScrollWheelData) × Option Nat :=
  let es := s.scrollWheelHandlers
  let r := fanOutLoop false (fun h => ⟨[], th h⟩) es.length 0 es []
  (r.2.1.map (fun h => (h, d)), r.2.2)

/-- The body of each window `sideClick` listener `setupSideButtonListener`
installs: `if (!this.sideButtonEnabled) return; this.handleSideButtonClick(event)`.
Consumers here are non-throwing (the gating claims involve no exceptions). -/
def DCState.sideClickListenerBody (s : DCState) : List Nat :=
  if s.sideButtonEnabled = false then []
  else (DCState.handleSideButtonClick (fun _ => false) s).1

/-- Raising one `sideClick` ambient signal: the window runs every installed
copy of the gate's `sideClick` listener (none of them mutates the state).
Returns all gate-consumer invocations, in order. -/
def DCState.raiseSideClick (s : DCState) : List Nat :=
  (List.replicate s.winSideClickCount (DCState.sideClickListenerBody s)).flatten

/-- One Space key press: the window runs every installed copy of the keydown
fallback listener, each of which dispatches one synthetic `sideClick` event. -/
def DCState.raiseSpaceKeydown (s : DCState) : List Nat :=
  (List.replicate s.winKeydownCount (DCState.raiseSideClick s)).flatten

/- ## Derived facts used by several claims -/

/-- Caught dispatch over a registry of non-mutating handlers invokes exactly
the registered handlers, each with the one enhanced envelope, and propagates
nothing back to the host. -/
lemma onPluginMessage_noMutation (J : Type) (parse : String → Option J)
    (es : Entries) (p : PluginMessageResponse) (beh : Nat → MsgBeh) (fuel : Nat)
    (hops : ∀ h, (beh h).ops = []) (hfuel : es.length ≤ fuel) :
    onPluginMessage parse beh es p fuel =
      (es, (registered es).map (fun h => (h, enhance parse p)), none) := by
  have hnt : ∀ h, ((beh h).throws && !true) = false := fun h => by simp
  have hloop := fanOutLoop_noMutation true beh es hops hnt fuel 0 [] (by omega)
  simp only [onPluginMessage, hloop, registered_eq_registeredFrom_zero, List.nil_append]

lemma handleSideButtonClick_pure (s : DCState) :
    DCState.handleSideButtonClick (fun _ => false) s =
      (registered s.sideButtonHandlers, none) := by
  have hloop := fanOutLoop_noMutation false (fun h => ⟨[], false⟩) s.sideButtonHandlers
    (fun _ => rfl) (fun _ => rfl) s.sideButtonHandlers.length 0 [] (by omega)
  simp only [DCState.handleSideButtonClick, hloop, registered_eq_registeredFrom_zero,
    List.nil_append]

lemma flatten_replicate_singleton (n c : Nat) :
    (List.replicate n [c]).flatten = List.replicate n c := by
  induction n with
  | zero => rfl
  | succ m ih => simp [List.replicate_succ, ih]

/- ## Claim theorems -/

/-- C1: for every registry of N ≥ 0 response consumers (well-formed, and with
consumers that neither mutate the registry nor throw), one invocation of the
installed inbound slot with a host payload invokes each registered consumer
exactly once, each with the same enhanced envelope (the payload fields plus
the derived `parsedData`), and raises nothing back to the host. -/
theorem c1_fanout_completeness (J : Type) (parse : String → Option J)
    (es : Entries) (p : PluginMessageResponse) (beh : Nat → MsgBeh) (fuel : Nat)
    (hwf : WF es) (hbeh : ∀ h, beh h = ⟨[], false⟩) (hfuel : es.length ≤ fuel) :
    (onPluginMessage parse beh es p fuel).2.1.map Prod.fst = registered es
    ∧ (∀ c ∈ registered es,
        ((onPluginMessage parse beh es p fuel).2.1.map Prod.fst).count c = 1)
    ∧ (∀ pr ∈ (onPluginMessage parse beh es p fuel).2.1, pr.2 = enhance parse p)
    ∧ (onPluginMessage parse beh es p fuel).2.2 = none := by
  have hops : ∀ h, (beh h).ops = [] := fun h => by rw [hbeh h]
  rw [onPluginMessage_noMutation J parse es p beh fuel hops hfuel]
  have hmap : (((registered es).map (fun h => (h, enhance parse p))).map Prod.fst)
      = registered es := by
    simp [Function.comp_def]
  refine ⟨hmap, ?_, ?_, rfl⟩
  · intro c hc
    rw [hmap]
    exact List.count_eq_one_of_mem hwf hc
  · intro pr hpr
    rw [List.mem_map] at hpr
    obtain ⟨h, _, hh⟩ := hpr
    rw [← hh]

/-- Witness for C1: two registered consumers, a payload with a data field;
each is invoked exactly once and nothing propagates. -/
theorem c1_witness :
    (onPluginMessage (fun _ : String => (none : Option Unit)) (fun _ => ⟨[], false⟩)
        [some 0, some 1] ⟨"hi", "p1", some "d"⟩ 2).2.1.map Prod.fst = registered [some 0, some 1]
    ∧ ((onPluginMessage (fun _ : String => (none : Option Unit)) (fun _ => ⟨[], false⟩)
        [some 0, some 1] ⟨"hi", "p1", some "d"⟩ 2).2.1.map Prod.fst).count 0 = 1
    ∧ ((onPluginMessage (fun _ : String => (none : Option Unit)) (fun _ => ⟨[], false⟩)
        [some 0, some 1] ⟨"hi", "p1", some "d"⟩ 2).2.1.map Prod.fst).count 1 = 1
    ∧ (onPluginMessage (fun _ : String => (none : Option Unit)) (fun _ => ⟨[], false⟩)
        [some 0, some 1] ⟨"hi", "p1", some "d"⟩ 2).2.2 = none :=
  have h := c1_fanout_completeness Unit (fun _ => none) [some 0, some 1] ⟨"hi", "p1", some "d"⟩
    (fun _ => ⟨[], false⟩) 2 (by decide) (fun _ => rfl) (by decide)
  ⟨h.1, h.2.1 0 (by decide), h.2.1 1 (by decide), h.2.2.2⟩

/-- C3: if the k-th consumer of a dispatch throws (consumers perform no
registry mutation), every registered consumer is still invoked with the same
envelope, and the dispatch routine propagates nothing back to the host's
inbound slot: the exception is caught at the point of invocation. -/
theorem c3_consumer_isolation (J : Type) (parse : String → Option J)
    (es : Entries) (p : PluginMessageResponse) (beh : Nat → MsgBeh) (fuel : Nat) (k : Nat)
    (hops : ∀ h, (beh h).ops = []) (_hk : (beh k).throws = true) (_hkmem : k ∈ registered es)
    (hfuel : es.length ≤ fuel) :
    (onPluginMessage parse beh es p fuel).2.1.map Prod.fst = registered es
    ∧ (∀ pr ∈ (onPluginMessage parse beh es p fuel).2.1, pr.2 = enhance parse p)
    ∧ (onPluginMessage parse beh es p fuel).2.2 = none := by
  rw [onPluginMessage_noMutation J parse es p beh fuel hops hfuel]
  refine ⟨by simp [Function.comp_def], ?_, rfl⟩
  intro pr hpr
  rw [List.mem_map] at hpr
  obtain ⟨h, _, hh⟩ := hpr
  rw [← hh]

/-- Witness for C3: three consumers, the middle one throws; all three are
still invoked and nothing propagates back to the host. -/
theorem c3_witness :
    (onPluginMessage (fun _ : String => (none : Option Unit)) (fun h => ⟨[], h == 1⟩)
        [some 0, some 1, some 2] ⟨"hi", "p1", none⟩ 3).2.1.map Prod.fst
      = registered [some 0, some 1, some 2]
    ∧ (onPluginMessage (fun _ : String => (none : Option Unit)) (fun h => ⟨[], h == 1⟩)
        [some 0, some 1, some 2] ⟨"hi", "p1", none⟩ 3).2.2 = none :=
  have h := c3_consumer_isolation Unit (fun _ => none) [some 0, some 1, some 2] ⟨"hi", "p1", none⟩
    (fun h => ⟨[], h == 1⟩) 3 1 (fun _ => rfl) rfl (by decide) (by decide)
  ⟨h.1, h.2.2⟩

/-- Registers handler 1 from inside handler 0 (an `onMessage` call made during
the dispatch of handler 0). -/
def addDuringDispatchBeh : Nat → MsgBeh :=
  fun h => if h = 0 then ⟨[RegOp.add 1], false⟩ else ⟨[], false⟩

/-- C2 is false of the code: the dispatcher iterates the live `Set`, not a
snapshot.  With handler 0 alone registered when dispatch begins, and handler 0
registering handler 1 from within its callback, handler 1 is also invoked in
that same dispatch — the invoked set `[0, 1]` is not the set `[0]` registered
at the moment dispatch began. -/
theorem c2_counterexample :
    (onPluginMessage (fun _ : String => (none : Option Unit)) addDuringDispatchBeh
        [some 0] ⟨"m", "p", none⟩ 2).2.1.map Prod.fst = [0, 1]
    ∧ registered [some 0] = [0]
    ∧ ([0, 1] : List Nat) ≠ [0] := by
  refine ⟨?_, rfl, by decide⟩
  rfl

/-- C2 amended: the consumer set is iterated live during fan-out (JavaScript
`Set.forEach` semantics), not snapshotted: a consumer that a callback registers
during the dispatch is additionally invoked in that same dispatch, and a
consumer that a callback unregisters before it is reached is skipped. -/
theorem c2_amended_live_iteration (a b : Nat) (hab : a ≠ b) :
    (fanOutLoop true (fun h => if h = a then ⟨[RegOp.add b], false⟩ else ⟨[], false⟩)
        2 0 [some a] []).2.1 = [a, b]
    ∧ (fanOutLoop true (fun h => if h = a then ⟨[RegOp.remove b], false⟩ else ⟨[], false⟩)
        3 0 [some a, some b] []).2.1 = [a] := by
  have hba : ¬(b = a) := fun hc => hab hc.symm
  constructor
  · simp [fanOutLoop, runOps, applyOp, entAdd, hba]
  · simp [fanOutLoop, runOps, applyOp, entDel, hba, hab]

/-- Witness for the amended C2 at handlers 0 and 1. -/
theorem c2_amended_witness :
    (fanOutLoop true (fun h => if h = 0 then ⟨[RegOp.add 1], false⟩ else ⟨[], false⟩)
        2 0 [some 0] []).2.1 = [0, 1]
    ∧ (fanOutLoop true (fun h => if h = 0 then ⟨[RegOp.remove 1], false⟩ else ⟨[], false⟩)
        3 0 [some 0, some 1] []).2.1 = [0] :=
  c2_amended_live_iteration 0 1 (by decide)

/-- C4 is false of the code: neither `HardwareEvents.emit` nor the gate's
fan-outs wrap the consumer call in a try/catch.  With consumers 0 and 1
registered for `sideClick` (resp. the `sideButton` channel) and consumer 0
throwing, consumer 1 is never invoked and the exception propagates out of the
fan-out routine. -/
theorem c4_counterexample :
    hwEmit (fun h => h == 0)
        (hwOn (hwOn hwFresh HardwareEventType.sideClick 0) HardwareEventType.sideClick 1)
        HardwareEventType.sideClick = ([0], some 0)
    ∧ DCState.handleSideButtonClick (fun h => h == 0)
        (DCState.on (DCState.on dcFresh GateChannel.sideButton 0) GateChannel.sideButton 1)
      = ([0], some 0)
    ∧ (1 : Nat) ∉ ([0] : List Nat)
    ∧ (some 0 : Option Nat) ≠ none := by
  refine ⟨?_, ?_, by decide, by decide⟩
  · rfl
  · rfl

/-- C4 amended: hardware-event fan-out and Device-Control-Gate fan-out have NO
per-consumer isolation: for every tag of the five-member taxonomy and for both
gate channels, if a registered consumer throws during delivery of one event,
the consumers registered before it still receive the event, the consumers
after it are never invoked, and the fan-out routine propagates the
exception. -/
theorem c4_amended_no_isolation (th : Nat → Bool) (pre post : List Nat) (c : Nat)
    (hpre : ∀ x ∈ pre, th x = false) (hc : th c = true) :
    (∀ (l : HWListeners) (e : HardwareEventType), registered (l e) = pre ++ c :: post →
      hwEmit th l e = (pre ++ [c], some c))
    ∧ (∀ s : DCState, registered s.sideButtonHandlers = pre ++ c :: post →
        DCState.handleSideButtonClick th s = (pre ++ [c], some c))
    ∧ (∀ (s : DCState) (d : ScrollWheelData), registered s.scrollWheelHandlers = pre ++ c :: post →
        DCState.handleScrollWheel th s d = ((pre ++ [c]).map (fun h => (h, d)), some c)) := by
  refine ⟨?_, ?_, ?_⟩
  · intro l e hreg
    have habort := fanOutLoop_abort th (l e).length 0 (l e) [] pre post c
      (by rw [← registered_eq_registeredFrom_zero]; exact hreg) hpre hc (by omega)
    simp only [hwEmit, habort, List.nil_append]
  · intro s hreg
    have habort := fanOutLoop_abort th s.sideButtonHandlers.length 0 s.sideButtonHandlers
      [] pre post c (by rw [← registered_eq_registeredFrom_zero]; exact hreg) hpre hc (by omega)
    simp only [DCState.handleSideButtonClick, habort, List.nil_append]
  · intro s d hreg
    have habort := fanOutLoop_abort th s.scrollWheelHandlers.length 0 s.scrollWheelHandlers
      [] pre post c (by rw [← registered_eq_registeredFrom_zero]; exact hreg) hpre hc (by omega)
    simp only [DCState.handleScrollWheel, habort, List.nil_append]

/-- Witness for the amended C4: consumers 0, 1, 2 registered, consumer 1
throws; consumer 0 is delivered, consumer 2 is not, the exception escapes. -/
theorem c4_amended_witness :
    hwEmit (fun h => h == 1)
        (hwOn (hwOn (hwOn hwFresh HardwareEventType.sideClick 0) HardwareEventType.sideClick 1)
          HardwareEventType.sideClick 2) HardwareEventType.sideClick = ([0, 1], some 1)
    ∧ DCState.handleSideButtonClick (fun h => h == 1)
        (DCState.on (DCState.on (DCState.on dcFresh GateChannel.sideButton 0)
          GateChannel.sideButton 1) GateChannel.sideButton 2) = ([0, 1], some 1)
    ∧ DCState.handleScrollWheel (fun h => h == 1)
        (DCState.on (DCState.on (DCState.on dcFresh GateChannel.scrollWheel 0)
          GateChannel.scrollWheel 1) GateChannel.scrollWheel 2) ⟨ScrollDirection.up, none⟩
      = ([(0, ⟨ScrollDirection.up, none⟩), (1, ⟨ScrollDirection.up, none⟩)], some 1) :=
  have h := c4_amended_no_isolation (fun h => h == 1) [0] [2] 1 (by decide) (by decide)
  ⟨h.1 _ HardwareEventType.sideClick (by decide),
   h.2.1 _ (by decide),
   h.2.2 _ ⟨ScrollDirection.up, none⟩ (by decide)⟩

/-- C5 is false of the code at one input: the empty string.  `JSON.parse("")`
throws (the empty string is not valid JSON), yet the guard `if (data.data)`
treats the empty string as falsy and skips classification entirely, so the
delivered `parsedData` is `undefined`, not the original raw string.  (The
result does not even consult the parse function.) -/
theorem c5_counterexample :
    computeParsedData (fun _ : String => (none : Option Unit)) (some "") = ParsedData.undef
    ∧ (ParsedData.undef : ParsedData Unit) ≠ ParsedData.str "" :=
  ⟨rfl, by simp⟩

/-- C5 amended: for every nonempty raw string that is not parseable as JSON,
the delivered `parsedData` is the original raw string unchanged; for the empty
string (also not valid JSON) the truthiness guard skips classification and
`parsedData` is `undefined`. -/
theorem c5_amended_fallback (J : Type) (parse : String → Option J)
    (msg pid s : String) (hs : s ≠ "") (hp : parse s = none) :
    (enhance parse ⟨msg, pid, some s⟩).parsedData = ParsedData.str s := by
  simp [enhance, computeParsedData, hs, hp]

/-- Witness for the amended C5 at the raw string "not json". -/
theorem c5_amended_witness :
    (enhance (fun _ : String => (none : Option Unit)) ⟨"m", "p", some "not json"⟩).parsedData
      = ParsedData.str "not json" :=
  c5_amended_fallback Unit (fun _ => none) "m" "p" "not json" (by decide) rfl

/-- m successive `init()` calls with default options on one fresh
`DeviceControls` instance. -/
def dcInitN : Nat → DCState
  | 0 => dcFresh
  | n + 1 => DCState.init (dcInitN n) ⟨none, none, none⟩

lemma dcInitN_spec (m : Nat) :
    (dcInitN m).winSideClickCount = m
    ∧ (dcInitN m).winKeydownCount = m
    ∧ (dcInitN m).sideButtonEnabled = true
    ∧ (dcInitN m).sideButtonHandlers = [] := by
  induction m with
  | zero => exact ⟨rfl, rfl, rfl, rfl⟩
  | succ n ih =>
    obtain ⟨h1, h2, h3, h4⟩ := ih
    simp [dcInitN, DCState.init, h1, h2, h4]

/-- C6 is false of the code: `init` has no idempotency guard.  After two init
calls (keyboard fallback enabled by default) and one registered consumer, a
single `sideClick` signal delivers the event to that consumer twice, not at
most once. -/
theorem c6_counterexample :
    DCState.raiseSideClick (DCState.on (dcInitN 2) GateChannel.sideButton 0) = [0, 0]
    ∧ ([0, 0] : List Nat) ≠ [0] :=
  ⟨rfl, by decide⟩

/-- C6 amended: each `init` call installs an additional set of ambient
listeners (one more `sideClick` listener and one more keyboard-fallback
`keydown` listener per call); after m init calls with default options, one
`sideClick` signal results in m deliveries to each registered gate consumer,
not at most one. -/
theorem c6_amended_duplicate_listeners (m c : Nat) :
    (dcInitN m).winSideClickCount = m
    ∧ (dcInitN m).winKeydownCount = m
    ∧ DCState.raiseSideClick (DCState.on (dcInitN m) GateChannel.sideButton c)
        = List.replicate m c := by
  obtain ⟨h1, h2, h3, h4⟩ := dcInitN_spec m
  refine ⟨h1, h2, ?_⟩
  simp [DCState.on, DCState.raiseSideClick, DCState.sideClickListenerBody, h1, h3, h4,
    handleSideButtonClick_pure, entAdd, registered, flatten_replicate_singleton]

/-- C7 is false of the code as universally stated: configuring the gate with
`sideButtonEnabled: false` installs no `sideClick` window subscription at all
(`init` only calls `setupSideButtonListener` when the flag is then true), so
enabling the flag afterwards does not restore delivery — a registered
consumer receives nothing even though the flag is back to true. -/
theorem c7_counterexample :
    DCState.raiseSideClick
        (DCState.setSideButtonEnabled
          (DCState.on (DCState.init dcFresh ⟨some false, none, some false⟩)
            GateChannel.sideButton 0) true) = []
    ∧ registered ((DCState.setSideButtonEnabled
          (DCState.on (DCState.init dcFresh ⟨some false, none, some false⟩)
            GateChannel.sideButton 0) true).sideButtonHandlers) = [0] :=
  ⟨rfl, rfl⟩

/-- C7 amended: PROVIDED the gate was configured with the side button enabled
(so that exactly one `sideClick` subscription was installed): while
`sideButtonEnabled` is false a `sideClick` signal produces zero gate-consumer
invocations; setting the flag back to true restores delivery of subsequent
signals to every registered consumer without re-registration; and toggling
the flag never touches the installed subscription or the registry.  (If the
gate was instead configured with the flag false, no subscription exists and
enabling later delivers nothing.) -/
theorem c7_amended_gating (s : DCState) (h1 : s.winSideClickCount = 1) :
    DCState.raiseSideClick (DCState.setSideButtonEnabled s false) = []
    ∧ DCState.raiseSideClick
        (DCState.setSideButtonEnabled (DCState.setSideButtonEnabled s false) true)
      = registered s.sideButtonHandlers
    ∧ (DCState.setSideButtonEnabled s false).winSideClickCount = s.winSideClickCount
    ∧ (DCState.setSideButtonEnabled s true).winSideClickCount = s.winSideClickCount
    ∧ (DCState.setSideButtonEnabled s false).sideButtonHandlers = s.sideButtonHandlers
    ∧ (DCState.setSideButtonEnabled s true).sideButtonHandlers = s.sideButtonHandlers := by
  refine ⟨?_, ?_, rfl, rfl, rfl, rfl⟩
  · simp [DCState.raiseSideClick, DCState.sideClickListenerBody, DCState.setSideButtonEnabled, h1]
  · simp [DCState.raiseSideClick, DCState.sideClickListenerBody, DCState.setSideButtonEnabled,
      h1, handleSideButtonClick_pure]

/-- One default-option `init()` on a fresh gate (installs one subscription). -/
def dcOneInit : DCState := DCState.init dcFresh ⟨none, none, none⟩

/-- Witness for the amended C7: one enabled init, consumer 3 registered. -/
theorem c7_amended_witness :
    DCState.raiseSideClick
        (DCState.setSideButtonEnabled (DCState.on dcOneInit GateChannel.sideButton 3) false) = []
    ∧ DCState.raiseSideClick
        (DCState.setSideButtonEnabled
          (DCState.setSideButtonEnabled (DCState.on dcOneInit GateChannel.sideButton 3) false)
          true)
      = registered (DCState.on dcOneInit GateChannel.sideButton 3).sideButtonHandlers
    ∧ (DCState.setSideButtonEnabled (DCState.on dcOneInit GateChannel.sideButton 3)
        false).winSideClickCount
      = (DCState.on dcOneInit GateChannel.sideButton 3).winSideClickCount :=
  have h := c7_amended_gating (DCState.on dcOneInit GateChannel.sideButton 3) rfl
  ⟨h.1, h.2.1, h.2.2.1⟩

/-- C8: `sendMessage` fails exactly when the host transport handle
`PluginMessageHandler` is absent, raising the `EnvironmentUnavailable`-style
error synchronously to the caller and posting nothing; when the handle is
present it posts exactly the serialized envelope and raises nothing. -/
theorem c8_send_environment_unavailable (stringify : PluginMessage → String)
    (posted : List String) (message : String) (o : MessageOptions) :
    sendMessage stringify false posted message o = (posted, some envUnavailableMsg)
    ∧ sendMessage stringify true posted message o
      = (posted ++ [stringify (mkPayload message o)], none) :=
  ⟨rfl, rfl⟩

/-- C9: a consumer registered on the canonical `sideClick` tag observes
exactly the same thing whichever of the three origins (native hardware,
keyboard fallback, programmatic trigger) raised the signal: all three funnel
through the same window event and the normalizer's listener drops the event
value before republishing, so the delivered observation is origin-independent.
The keyboard fallback's Space mapping and `triggerSideButton` produce exactly
the events modelled by `originEvent`. -/
theorem c9_origin_indistinguishability (th : Nat → Bool) (l : HWListeners) (o1 o2 : Origin) :
    hwObserve th l o1 = hwObserve th l o2
    ∧ keydownFallbackEvent ⟨"Space"⟩ = some (originEvent Origin.keyboard)
    ∧ triggerSideButtonEvent = originEvent Origin.programmatic :=
  ⟨rfl, by simp [keydownFallbackEvent, originEvent], rfl⟩

/-- C10: registration is idempotent at all three registries (messaging,
hardware tags, gate channels): adding the same handler twice equals adding it
once; after registration one dispatched payload invokes the handler exactly
once; and a single unregister call removes it completely. -/
theorem c10_registration_idempotent (J : Type) (parse : String → Option J)
    (p : PluginMessageResponse) (es : Entries) (l : HWListeners) (s : DCState)
    (e : HardwareEventType) (t : GateChannel) (c : Nat) (hwf : WF es) :
    onMessage (onMessage es c) c = onMessage es c
    ∧ hwOn (hwOn l e c) e c = hwOn l e c
    ∧ DCState.on (DCState.on s t c) t c = DCState.on s t c
    ∧ ((onPluginMessage parse (fun _ => ⟨[], false⟩) (onMessage es c) p
        (onMessage es c).length).2.1.map Prod.fst).count c = 1
    ∧ some c ∉ offMessage (onMessage es c) c := by
  refine ⟨entAdd_idem es c, ?_, ?_, ?_, not_mem_entDel (onMessage es c) c⟩
  · funext x
    by_cases hx : x = e <;> simp [hwOn, hx, entAdd_idem]
  · cases t <;> simp [DCState.on, entAdd_idem]
  · rw [onPluginMessage_noMutation J parse (onMessage es c) p _ _ (fun _ => rfl) (by omega)]
    have hmap : (((registered (onMessage es c)).map (fun h => (h, enhance parse p))).map Prod.fst)
        = registered (onMessage es c) := by
      simp [Function.comp_def]
    rw [hmap]
    exact List.count_eq_one_of_mem (WF_entAdd es c hwf) (mem_registered_entAdd es c)

/-- Witness for C10 at concrete registries and handler 5. -/
theorem c10_witness :
    onMessage (onMessage [some 9] 5) 5 = onMessage [some 9] 5
    ∧ hwOn (hwOn hwFresh HardwareEventType.scrollUp 5) HardwareEventType.scrollUp 5
      = hwOn hwFresh HardwareEventType.scrollUp 5
    ∧ DCState.on (DCState.on dcFresh GateChannel.scrollWheel 5) GateChannel.scrollWheel 5
      = DCState.on dcFresh GateChannel.scrollWheel 5
    ∧ ((onPluginMessage (fun _ : String => (none : Option Unit)) (fun _ => ⟨[], false⟩)
        (onMessage [some 9] 5) ⟨"m", "p", none⟩
        (onMessage [some 9] 5).length).2.1.map Prod.fst).count 5 = 1
    ∧ some 5 ∉ offMessage (onMessage [some 9] 5) 5 :=
  c10_registration_idempotent Unit (fun _ => none) ⟨"m", "p", none⟩ [some 9] hwFresh dcFresh
    HardwareEventType.scrollUp GateChannel.scrollWheel 5 (by decide)

end R1SDK
